import Mathlib

/-!
Shallow embedding of the data-loading and preparation core of the
streamlit_dataviz repository (src/utils/io.py and src/utils/prep.py),
together with theorems settling the specification claims about it.

Modelling conventions:
* pandas floats are modelled as rationals (`Rat`); `NaN`/`NA` is `none` in
  `Option Rat` (or the `RCell.na` / `PVal.nan` constructors below).
* Arithmetic on the embedded values is written with the wrappers
  `qAdd`, `qSub`, `qMul`, `qDiv`, `qRound` below, which are proved equal to
  the standard rational operations (`qAdd_eq` etc.) and which the kernel
  can evaluate on concrete inputs.
* `round(x, 2)` / `Series.round(2)` is modelled as rounding `x * 100` to the
  nearest integer (round half up).  Python rounds floating values with ties
  to even; the two agree away from exact `.005` ties, and no tie is
  exercised by any theorem below.
* `pd.to_numeric(errors="coerce")` on a single cell is modelled by a
  decimal-literal parser (optional sign, digits, optional fractional part).
  Scientific notation, which pandas would also accept, is outside the
  modelled input range and parses to missing here; no claim exercises it.
-/

namespace Lovac

/-- Addition on `ℚ` via `mkRat`; equal to `+` by `qAdd_eq`. -/
def qAdd (a b : ℚ) : ℚ := mkRat (a.num * b.den + b.num * a.den) (a.den * b.den)

/-- Subtraction on `ℚ` via `mkRat`; equal to `-` by `qSub_eq`. -/
def qSub (a b : ℚ) : ℚ := mkRat (a.num * b.den - b.num * a.den) (a.den * b.den)

/-- Multiplication on `ℚ` via `mkRat`; equal to `*` by `qMul_eq`. -/
def qMul (a b : ℚ) : ℚ := mkRat (a.num * b.num) (a.den * b.den)

/-- Division on `ℚ` via `mkRat` (division by zero gives zero, as for `/`);
equal to `/` by `qDiv_eq`. -/
def qDiv (a b : ℚ) : ℚ :=
  if b.num < 0 then mkRat (-(a.num * (b.den : Int))) (a.den * b.num.natAbs)
  else mkRat (a.num * b.den) (a.den * b.num.natAbs)

/-- Rounding to the nearest integer, half up; equal to `round` by
`qRound_eq`. -/
def qRound (q : ℚ) : Int := (2 * q.num + q.den) / (2 * (q.den : Int))

/-- Python `round(x, 2)` on a rational value: round `x * 100` to the nearest
integer (half up; Python uses ties-to-even on floats, and no exact tie is
exercised below) and divide by 100. -/
def round2 (q : ℚ) : ℚ := mkRat (qRound (qMul q 100)) 100

/-- Character with code `48 + d`; for `d < 10` this is the digit character. -/
def digitChar (d : Nat) : Char := Char.ofNat (48 + d)

/-- Numeric value of a digit character. -/
def charVal (c : Char) : Nat := c.toNat - 48

/-- Is `c` an ASCII digit. -/
def isDigitC (c : Char) : Bool := 48 ≤ c.toNat && c.toNat ≤ 57

/-- Whitespace for the purposes of Python `str.strip` and float parsing:
space, tab, LF, VT, FF, CR and the no-break space U+00A0. -/
def isPyWS (c : Char) : Bool :=
  c.toNat = 32 || c.toNat = 9 || c.toNat = 10 || c.toNat = 11 ||
  c.toNat = 12 || c.toNat = 13 || c.toNat = 160

/-- Python `str.strip()`: drop whitespace from both ends. -/
def pyStrip (cs : List Char) : List Char :=
  ((cs.dropWhile isPyWS).reverse.dropWhile isPyWS).reverse

/-- `str.replace(" ", "")` from load_department_data: remove every ordinary
space character (U+0020 only). -/
def removeSpaces (cs : List Char) : List Char :=
  cs.filter (fun c => c.toNat != 32)

/-- Value of a big-endian list of digit characters. -/
def natFromDigits (cs : List Char) : Nat :=
  Nat.ofDigits 10 ((cs.map charVal).reverse)

/-- Parse an unsigned decimal literal: digits, optionally followed by a
point and further digits (`"1"`, `"1.5"`, `"1."`, `".5"`). -/
def parseUnsigned (cs : List Char) : Option Rat :=
  let ip := cs.takeWhile isDigitC
  match cs.dropWhile isDigitC with
  | [] => if ip.isEmpty then none else some (natFromDigits ip)
  | c :: rest =>
    if c = '.' then
      let fp := rest.takeWhile isDigitC
      if rest.dropWhile isDigitC = [] then
        if ip.isEmpty && fp.isEmpty then none
        else some (qAdd (natFromDigits ip) (mkRat (natFromDigits fp) (10 ^ fp.length)))
      else none
    else none

/-- Parse a decimal literal with an optional leading sign. -/
def parseSigned (cs : List Char) : Option Rat :=
  match cs with
  | [] => parseUnsigned []
  | c :: rest =>
    if c = '-' then (parseUnsigned rest).map (fun q => qSub 0 q)
    else if c = '+' then parseUnsigned rest
    else parseUnsigned (c :: rest)

/-- `pd.to_numeric(errors="coerce")` on one cell: tolerate surrounding
whitespace, then parse a decimal literal; any failure is missing.
The string `"nan"` (the `astype(str)` image of NaN) fails the digit parse
and is missing, matching the NaN produced by pandas. -/
def toNumeric (cs : List Char) : Option Rat := parseSigned (pyStrip cs)

/-- Per-cell numeric normalization of load_department_data (io.py lines
31-35): `astype(str)` (NaN renders as `"nan"`), `str.strip()`,
`str.replace(" ", "")`, `pd.to_numeric(errors="coerce")`. -/
def normalizeDept (c : Option String) : Option Rat :=
  match c with
  | none => toNumeric (removeSpaces (pyStrip "nan".data))
  | some s => toNumeric (removeSpaces (pyStrip s.data))

/-- Per-cell numeric normalization of load_commune_data (io.py lines
69-73): `replace("s", pd.NA)` then `pd.to_numeric(errors="coerce")`.
No space stripping happens on this path. -/
def normalizeCommune (c : Option String) : Option Rat :=
  match c with
  | none => none
  | some s => if s = "s" then none else toNumeric s.data


/-- A row of a cleaned pandas DataFrame as consumed by prep.py: text
(geography) columns and numeric metric columns.  `getCell` models
`row.get(col, np.nan)` / series access: an absent column and a NaN cell
both read as missing. -/
structure Row where
  keys : List (String × String)
  cells : List (String × Option Rat)
deriving DecidableEq, Repr

/-- A cleaned DataFrame: the column index plus the rows. -/
structure DataFrame where
  columns : List String
  rows : List Row
deriving DecidableEq, Repr

/-- Numeric cell access, `row.get(col, np.nan)`: missing when the column is
absent or the stored value is NaN. -/
def getCell (r : Row) (c : String) : Option Rat :=
  match r.cells.lookup c with
  | some v => v
  | none => none

/-- Text cell access, `row[col]` on a geography column. -/
def getKey (r : Row) (c : String) : String :=
  (r.keys.lookup c).getD ""

/-- The fixed year-suffix list of prep.py. -/
def years : List String := ["20", "21", "22", "23", "24", "25"]

/-- `int(f"20{year}")` on a year suffix. -/
def yearNum (y : String) : Nat := natFromDigits ('2' :: '0' :: y.data)

/-- Series cell of `(vacant / total * 100).round(2).replace([inf, -inf], nan)`
as in calculate_vacancy_rate: NaN when either operand is missing or the
denominator is zero (0/0 is NaN, x/0 is +-inf and is replaced by NaN). -/
def rateSeriesCell (v t : Option Rat) : Option Rat :=
  match v, t with
  | some v, some t => if t = 0 then none else some (round2 (qMul (qDiv v t) 100))
  | _, _ => none

/-- prep.py lines 9-27, calculate_vacancy_rate: for suffix "25" the
denominator column is pp_total_24 (pp_total_25 does not exist); when either
column is absent the whole series is NaN. -/
def calculate_vacancy_rate (df : DataFrame) (ys : String) : List (Option Rat) :=
  let vacantCol := "pp_vacant_" ++ ys
  let totalCol := if ys ≠ "25" then "pp_total_" ++ ys else "pp_total_24"
  if vacantCol ∈ df.columns ∧ totalCol ∈ df.columns then
    df.rows.map (fun r => rateSeriesCell (getCell r vacantCol) (getCell r totalCol))
  else
    df.rows.map (fun _ => none)

/-- prep.py lines 30-48, calculate_longterm_vacancy_rate: same shape with
numerator pp_vacant_plus_2ans_YY. -/
def calculate_longterm_vacancy_rate (df : DataFrame) (ys : String) : List (Option Rat) :=
  let longtermCol := "pp_vacant_plus_2ans_" ++ ys
  let totalCol := if ys ≠ "25" then "pp_total_" ++ ys else "pp_total_24"
  if longtermCol ∈ df.columns ∧ totalCol ∈ df.columns then
    df.rows.map (fun r => rateSeriesCell (getCell r longtermCol) (getCell r totalCol))
  else
    df.rows.map (fun _ => none)

/-- `(num / den * 100) if pd.notna(den) and den > 0 else np.nan`, followed by
`round(x, 2) if pd.notna(x) else np.nan`, as in prepare_department_timeseries
(and, with the guard `den > 0` evaluating the same way on NaN, in
prepare_national_aggregates). -/
def guardedRate (numer denom : Option Rat) : Option Rat :=
  match denom with
  | some t =>
    if 0 < t then
      match numer with
      | some v => some (round2 (qMul (qDiv v t) 100))
      | none => none
    else none
  | none => none

/-- One record appended by prepare_department_timeseries. -/
structure TsRecord where
  dep : String
  lib_dep : String
  year : Nat
  total_properties : Option Rat
  vacant_properties : Option Rat
  vacant_2plus_years : Option Rat
  vacancy_rate : Option Rat
  longterm_vacancy_rate : Option Rat
  longterm_share : Option Rat
deriving DecidableEq, Repr

/-- Body of the inner loop of prepare_department_timeseries (prep.py lines
61-89).  Note the totals column is pp_total_YY for every suffix including
"25": this function, unlike its five siblings, performs no pp_total_24
substitution. -/
def mkTsRecord (r : Row) (y : String) : TsRecord :=
  let total := getCell r ("pp_total_" ++ y)
  let vacant := getCell r ("pp_vacant_" ++ y)
  let vacant2y := getCell r ("pp_vacant_plus_2ans_" ++ y)
  { dep := getKey r "DEP"
  , lib_dep := getKey r "LIB_DEP"
  , year := yearNum y
  , total_properties := total
  , vacant_properties := vacant
  , vacant_2plus_years := vacant2y
  , vacancy_rate := guardedRate vacant total
  , longterm_vacancy_rate := guardedRate vacant2y total
  , longterm_share := guardedRate vacant2y vacant }

/-- prep.py lines 51-90, prepare_department_timeseries: one record per
(row, year suffix), years in the fixed list. -/
def prepare_department_timeseries (df : DataFrame) : List TsRecord :=
  df.rows.flatMap (fun r => years.map (fun y => mkTsRecord r y))

/-- One record of prepare_national_aggregates. -/
structure NatRecord where
  year : Nat
  total_properties : Option Rat
  vacant_properties : Option Rat
  vacant_2plus_years : Option Rat
  vacancy_rate : Option Rat
  longterm_vacancy_rate : Option Rat
  longterm_share : Option Rat
deriving DecidableEq, Repr

/-- `df[col].sum() if col in df.columns else np.nan`: pandas sum skips NaN
cells (an all-NaN or empty column sums to 0). -/
def sumCol (df : DataFrame) (c : String) : Option Rat :=
  if c ∈ df.columns then
    some (df.rows.foldr (fun r acc => qAdd ((getCell r c).getD 0) acc) 0)
  else none

/-- prep.py lines 93-131, prepare_national_aggregates: sums the department
columns per year; the year-25 total column is pp_total_24. -/
def prepare_national_aggregates (df : DataFrame) : List NatRecord :=
  years.map (fun y =>
    let totalCol := if y ≠ "25" then "pp_total_" ++ y else "pp_total_24"
    let total := sumCol df totalCol
    let vacant := sumCol df ("pp_vacant_" ++ y)
    let vacant2y := sumCol df ("pp_vacant_plus_2ans_" ++ y)
    { year := yearNum y
    , total_properties := total
    , vacant_properties := vacant
    , vacant_2plus_years := vacant2y
    , vacancy_rate := guardedRate vacant total
    , longterm_vacancy_rate := guardedRate vacant2y total
    , longterm_share := guardedRate vacant2y vacant })

/-- A computed pandas float that may be infinite: prepare_department_snapshot
and prepare_commune_snapshot divide without replacing infinities. -/
inductive PVal where
  | num (q : Rat)
  | pinf
  | ninf
  | nan
deriving DecidableEq, Repr

/-- `numer / denom * 100` with pandas float semantics: NaN if either operand
is NaN, 0/0 is NaN, otherwise division by zero gives a signed infinity. -/
def pdRate (numer denom : Option Rat) : PVal :=
  match numer, denom with
  | some v, some t =>
    if t = 0 then (if v = 0 then .nan else if 0 < v then .pinf else .ninf)
    else .num (qMul (qDiv v t) 100)
  | _, _ => .nan

/-- `.round(2)` on a possibly infinite float: infinities and NaN unchanged. -/
def pvRound2 : PVal → PVal
  | .num q => .num (round2 q)
  | x => x

/-- `a - b` with NaN propagation. -/
def subOpt (a b : Option Rat) : Option Rat :=
  match a, b with
  | some a, some b => some (qSub a b)
  | _, _ => none

/-- `str(int(year) - 1)` restricted to the membership test
`prev_year in ["20", "21", "22", "23", "24"]` of
prepare_department_snapshot: the predecessor suffix when it is in that
list, otherwise nothing (callers only pass suffixes from `years`). -/
def prevYear (y : String) : Option String :=
  match y with
  | "21" => some "20"
  | "22" => some "21"
  | "23" => some "22"
  | "24" => some "23"
  | "25" => some "24"
  | _ => none

/-- One row of prepare_department_snapshot.  When the previous-year branch
is not taken the two change columns do not exist in the source frame; they
are modelled as NaN here (no claim touches them in that case). -/
structure DeptSnapRow where
  dep : String
  lib_dep : String
  total_properties : Option Rat
  vacant_properties : Option Rat
  vacant_2plus_years : Option Rat
  vacancy_rate : Option Rat
  longterm_vacancy_rate : Option Rat
  longterm_share : PVal
  vacant_change : Option Rat
  vacant_change_pct : PVal
deriving DecidableEq, Repr

/-- prep.py lines 134-177, prepare_department_snapshot.  Raises (models the
uncaught KeyError) when DEP/LIB_DEP are absent, or when the previous-year
branch is taken and either vacant column is absent.  The year-25 total
column is pp_total_24. -/
def prepare_department_snapshot (df : DataFrame) (y : String) : Except String (List DeptSnapRow) :=
  if "DEP" ∈ df.columns ∧ "LIB_DEP" ∈ df.columns then
    let totalCol := if y ≠ "25" then "pp_total_" ++ y else "pp_total_24"
    let vacantCol := "pp_vacant_" ++ y
    let longtermCol := "pp_vacant_plus_2ans_" ++ y
    let base := fun (r : Row) (vrate lrate : Option Rat) =>
      let total := if totalCol ∈ df.columns then getCell r totalCol else none
      let vacant := if vacantCol ∈ df.columns then getCell r vacantCol else none
      let vacant2y := if longtermCol ∈ df.columns then getCell r longtermCol else none
      { dep := getKey r "DEP"
      , lib_dep := getKey r "LIB_DEP"
      , total_properties := total
      , vacant_properties := vacant
      , vacant_2plus_years := vacant2y
      , vacancy_rate := vrate
      , longterm_vacancy_rate := lrate
      , longterm_share := pvRound2 (pdRate vacant2y vacant)
      , vacant_change := none
      , vacant_change_pct := PVal.nan : DeptSnapRow }
    let rows := List.zipWith (fun r (p : Option Rat × Option Rat) => base r p.1 p.2)
      df.rows ((calculate_vacancy_rate df y).zip (calculate_longterm_vacancy_rate df y))
    match prevYear y with
    | none => .ok rows
    | some p =>
      let prevCol := "pp_vacant_" ++ p
      if vacantCol ∈ df.columns ∧ prevCol ∈ df.columns then
        .ok (List.zipWith (fun (row : Row) (snap : DeptSnapRow) =>
          let cur := getCell row vacantCol
          let prev := getCell row prevCol
          { snap with
            vacant_change := subOpt cur prev
            vacant_change_pct := pvRound2 (pdRate (subOpt cur prev) prev) })
          df.rows rows)
      else .error "KeyError"
  else .error "KeyError"

/-- The geography columns selected by prepare_commune_snapshot. -/
def communeKeyCols : List String :=
  ["CODGEO_25", "LIBGEO_25", "DEP", "LIB_DEP", "REG", "LIB_REG", "EPCI_25", "LIB_EPCI_25"]

/-- One row of prepare_commune_snapshot. -/
structure CommuneSnapRow where
  codgeo : String
  libgeo : String
  dep : String
  lib_dep : String
  reg : String
  lib_reg : String
  epci : String
  lib_epci : String
  total_properties : Option Rat
  vacant_properties : Option Rat
  vacant_2plus_years : Option Rat
  vacancy_rate : PVal
  longterm_vacancy_rate : PVal
  longterm_share : PVal
deriving DecidableEq, Repr

/-- prep.py lines 180-222, prepare_commune_snapshot.  Raises (KeyError) when
any selected geography column is absent; the year-25 total column is
pp_total_24; the three rates divide without guarding the denominator and
round afterwards. -/
def prepare_commune_snapshot (df : DataFrame) (y : String) : Except String (List CommuneSnapRow) :=
  if communeKeyCols.all (fun c => c ∈ df.columns) then
    let totalCol := if y ≠ "25" then "pp_total_" ++ y else "pp_total_24"
    let vacantCol := "pp_vacant_" ++ y
    let longtermCol := "pp_vacant_plus_2ans_" ++ y
    .ok (df.rows.map (fun r =>
      let total := if totalCol ∈ df.columns then getCell r totalCol else none
      let vacant := if vacantCol ∈ df.columns then getCell r vacantCol else none
      let vacant2y := if longtermCol ∈ df.columns then getCell r longtermCol else none
      { codgeo := getKey r "CODGEO_25"
      , libgeo := getKey r "LIBGEO_25"
      , dep := getKey r "DEP"
      , lib_dep := getKey r "LIB_DEP"
      , reg := getKey r "REG"
      , lib_reg := getKey r "LIB_REG"
      , epci := getKey r "EPCI_25"
      , lib_epci := getKey r "LIB_EPCI_25"
      , total_properties := total
      , vacant_properties := vacant
      , vacant_2plus_years := vacant2y
      , vacancy_rate := pvRound2 (pdRate vacant total)
      , longterm_vacancy_rate := pvRound2 (pdRate vacant2y total)
      , longterm_share := pvRound2 (pdRate vacant2y vacant) }))
  else .error "KeyError"


/-- A value of the quality report dictionary of identify_data_quality_issues. -/
inductive QVal where
  | nat (n : Nat)
  | natMap (m : List (String × Nat))
  | ratMap (m : List (String × Option Rat))
deriving DecidableEq, Repr

/-- Is the cell of column `c` missing in row `r` (`df.isna()`): geography
strings are never NaN; a metric cell is missing when NaN or absent. -/
def isMissing (r : Row) (c : String) : Bool :=
  match r.keys.lookup c with
  | some _ => false
  | none =>
    match r.cells.lookup c with
    | some (some _) => false
    | _ => true

/-- `df.isna().sum()` for one column. -/
def missingCount (df : DataFrame) (c : String) : Nat :=
  df.rows.countP (fun r => isMissing r c)

/-- `df.duplicated().sum()`: rows equal to some earlier row. -/
def dupCountAux : List Row → List Row → Nat
  | _, [] => 0
  | seen, r :: rs => (if r ∈ seen then 1 else 0) + dupCountAux (r :: seen) rs

/-- Count of duplicate rows. -/
def dupCount (rows : List Row) : Nat := dupCountAux [] rows

/-- prep.py lines 261-278, identify_data_quality_issues: the report dict,
in insertion order.  `missing_percentage` is `(isna_count / len * 100)`
rounded to two decimals; on an empty frame the pandas quotient 0/0 is NaN. -/
def identify_data_quality_issues (df : DataFrame) : List (String × QVal) :=
  [ ("total_rows", QVal.nat df.rows.length)
  , ("missing_by_column", QVal.natMap (df.columns.map (fun c => (c, missingCount df c))))
  , ("missing_percentage", QVal.ratMap (df.columns.map (fun c =>
      (c, if df.rows.length = 0 then none
          else some (round2 (qMul (qDiv (missingCount df c) df.rows.length) 100))))))
  , ("duplicates", QVal.nat (dupCount df.rows)) ]

/-- A raw pandas cell right after `pd.read_csv`: a string, an
inference-parsed number, or NA. -/
inductive RCell where
  | str (s : String)
  | num (q : Rat)
  | na
deriving DecidableEq, Repr

/-- A raw row: association list from column name to cell. -/
abbrev RawRow := List (String × RCell)

/-- The frame produced by `pd.read_csv` (and returned by the loaders). -/
structure RawFrame where
  columns : List String
  rows : List RawRow
deriving DecidableEq, Repr

/-- `df.columns.str.strip()`. -/
def stripName (c : String) : String := String.mk (pyStrip c.data)

/-- `.str.strip()` on a text cell.  An already-numeric cell is left as is:
in pandas a text column holding any string stays object-typed cell-wise, and
an entirely numeric text column would raise at dtype level and be caught by
the loader exception handler, outside this per-cell model. -/
def stripCell : RCell → RCell
  | .str s => .str (String.mk (pyStrip s.data))
  | x => x

/-- Pack a parse result back into a pandas cell. -/
def toRCell : Option Rat → RCell
  | some q => .num q
  | none => .na

/-- The department numeric-cleaning loop applied to one cell:
`astype(str)` / strip / remove spaces / `to_numeric(coerce)`.  A cell pandas
already parsed as a number round-trips through `astype(str)` and
`to_numeric` unchanged (Python float repr round-trips; see the
normalization round-trip theorem below). -/
def cleanDeptCell : RCell → RCell
  | .str s => toRCell (normalizeDept (some s))
  | .na => toRCell (normalizeDept none)
  | .num q => .num q

/-- One row of the department cleaning (io.py lines 28-39): strip column
names, numerically clean every column except DEP and LIB_DEP, strip those
two. -/
def cleanDeptRow (row : RawRow) : RawRow :=
  row.map (fun cv =>
    let c := stripName cv.fst
    if c = "DEP" ∨ c = "LIB_DEP" then (c, stripCell cv.snd) else (c, cleanDeptCell cv.snd))

/-- Department cleaning stage; the final `df["LIB_DEP"]` / `df["DEP"]`
accesses raise KeyError when those columns are absent. -/
def load_department_clean (f : RawFrame) : Except String RawFrame :=
  let cols := f.columns.map stripName
  if "DEP" ∈ cols ∧ "LIB_DEP" ∈ cols then
    .ok { columns := cols, rows := f.rows.map cleanDeptRow }
  else .error "KeyError"

/-- `col.startswith("pp_")`. -/
def startsWithPP (s : String) : Bool :=
  match s.data with
  | 'p' :: 'p' :: '_' :: _ => true
  | _ => false

/-- The text columns conditionally stripped by load_commune_data. -/
def communeTextCols : List String := ["LIBGEO_25", "LIB_EPCI_25", "LIB_DEP", "LIB_REG"]

/-- The commune numeric-cleaning applied to one cell of a pp_ column:
`replace("s", pd.NA)` then `to_numeric(coerce)`. -/
def cleanCommuneCell : RCell → RCell
  | .str s => toRCell (normalizeCommune (some s))
  | .na => .na
  | .num q => .num q

/-- One row of the commune cleaning (io.py lines 66-82). -/
def cleanCommuneRow (row : RawRow) : RawRow :=
  row.map (fun cv =>
    let c := stripName cv.fst
    if startsWithPP c then (c, cleanCommuneCell cv.snd)
    else if c ∈ communeTextCols ∨ c = "DEP" ∨ c = "CODGEO_25" then (c, stripCell cv.snd)
    else (c, cv.snd))

/-- Commune cleaning stage; the final `df["DEP"]` / `df["CODGEO_25"]`
accesses raise KeyError when those columns are absent. -/
def load_commune_clean (f : RawFrame) : Except String RawFrame :=
  let cols := f.columns.map stripName
  if "DEP" ∈ cols ∧ "CODGEO_25" ∈ cols then
    .ok { columns := cols, rows := f.rows.map cleanCommuneRow }
  else .error "KeyError"

/-- The `pd.DataFrame()` returned by the loaders on any error. -/
def emptyRawFrame : RawFrame := { columns := [], rows := [] }

/-- io.py lines 10-45, load_department_data.  The file argument is the
parsed content when the path exists (`pd.read_csv` with the single
latin-1 encoding, which decodes every byte sequence, so no decode failure
exists).  The try/except catches every error — including the IOError of a
missing path — shows it in the UI and returns an empty frame; the function
itself never raises. -/
def load_department_data (file : Option RawFrame) : Except String RawFrame :=
  let attempt : Except String RawFrame :=
    match file with
    | none => .error "IOError"
    | some f => load_department_clean f
  match attempt with
  | .ok df => .ok df
  | .error _ => .ok emptyRawFrame

/-- io.py lines 48-87, load_commune_data; same error structure as the
department loader. -/
def load_commune_data (file : Option RawFrame) : Except String RawFrame :=
  let attempt : Except String RawFrame :=
    match file with
    | none => .error "IOError"
    | some f => load_commune_clean f
  match attempt with
  | .ok df => .ok df
  | .error _ => .ok emptyRawFrame

/-- A long-form observation (spec section 3): geography, metric, year,
nullable value. -/
structure Obs where
  dep : String
  metric : String
  year : Nat
  value : Option Rat
deriving DecidableEq, Repr

/-- The three observations carried by one timeseries record. -/
def obsOfRecord (r : TsRecord) : List Obs :=
  [ { dep := r.dep, metric := "total", year := r.year, value := r.total_properties }
  , { dep := r.dep, metric := "vacant", year := r.year, value := r.vacant_properties }
  , { dep := r.dep, metric := "vacant_2y", year := r.year, value := r.vacant_2plus_years } ]

/-- The long-form observation table produced by the reshaping step. -/
def observationsOf (df : DataFrame) : List Obs :=
  (prepare_department_timeseries df).flatMap obsOfRecord

/-- The 18 metric column names of the spec pattern
`<metric-base>_<two-digit-year>` over the fixed year window. -/
def metricColNames : List String :=
  years.flatMap (fun y => ["pp_total_" ++ y, "pp_vacant_" ++ y, "pp_vacant_plus_2ans_" ++ y])

/-- The columns of `df` matching the metric pattern. -/
def matchedMetricColumns (df : DataFrame) : List String :=
  df.columns.filter (fun c => c ∈ metricColNames)

/-- Re-pivot of the long table by (geography, year): the metric triples of
all records with the given DEP and year. -/
def pivotLookup (recs : List TsRecord) (dep : String) (yr : Nat) :
    List (Option Rat × Option Rat × Option Rat) :=
  (recs.filter (fun r => r.dep == dep && r.year == yr)).map
    (fun r => (r.total_properties, r.vacant_properties, r.vacant_2plus_years))


/-- A department row shaped like the real dataset: pp_total_25 does not
exist, pp_total_24 = 100, pp_vacant_25 = 8. -/
def rowC1 : Row :=
  { keys := [("DEP", "01"), ("LIB_DEP", "Ain")]
  , cells := [ ("pp_total_24", some 100), ("pp_vacant_24", some 10)
             , ("pp_vacant_25", some 8), ("pp_vacant_plus_2ans_24", some 4)
             , ("pp_vacant_plus_2ans_25", some 2) ] }

/-- One-department frame with the real column shape (no pp_total_25). -/
def dfC1 : DataFrame :=
  { columns := [ "DEP", "LIB_DEP", "pp_total_24", "pp_vacant_24", "pp_vacant_25"
               , "pp_vacant_plus_2ans_24", "pp_vacant_plus_2ans_25" ]
  , rows := [rowC1] }

/-- A one-commune frame with the same metric shape. -/
def dfCommune1 : DataFrame :=
  { columns := communeKeyCols ++ ["pp_total_24", "pp_vacant_25", "pp_vacant_plus_2ans_25"]
  , rows := [ { keys := [ ("CODGEO_25", "01001"), ("LIBGEO_25", "Abergement"), ("DEP", "01")
                        , ("LIB_DEP", "Ain"), ("REG", "84"), ("LIB_REG", "ARA")
                        , ("EPCI_25", "200069193"), ("LIB_EPCI_25", "CC") ]
              , cells := [ ("pp_total_24", some 100), ("pp_vacant_25", some 8)
                         , ("pp_vacant_plus_2ans_25", some 2) ] } ] }

/-- One-row frame where vacant/total = 1/3, a quotient that two-decimal
rounding moves by more than 1e-6. -/
def dfThird : DataFrame :=
  { columns := ["DEP", "LIB_DEP", "pp_total_20", "pp_vacant_20"]
  , rows := [ { keys := [("DEP", "01"), ("LIB_DEP", "Ain")]
              , cells := [("pp_total_20", some 3), ("pp_vacant_20", some 1)] } ] }

/-- One-row frame with 17 of the 18 metric columns (pp_total_25 absent,
as in the real department file). -/
def dfSeventeen : DataFrame :=
  { columns := ["DEP", "LIB_DEP"] ++ (metricColNames.filter (fun c => c != "pp_total_25"))
  , rows := [rowC1] }

/-- One-row frame with all 18 metric columns. -/
def dfEighteen : DataFrame :=
  { columns := ["DEP", "LIB_DEP"] ++ metricColNames
  , rows := [rowC1] }

/-- Three-row frame for the quality report: one exact duplicate pair, one
missing total, and a row with vacant > total. -/
def dfQuality : DataFrame :=
  { columns := ["DEP", "LIB_DEP", "pp_total_24", "pp_vacant_24"]
  , rows := [ { keys := [("DEP", "01"), ("LIB_DEP", "Ain")]
              , cells := [("pp_total_24", some 100), ("pp_vacant_24", some 120)] }
            , { keys := [("DEP", "01"), ("LIB_DEP", "Ain")]
              , cells := [("pp_total_24", some 100), ("pp_vacant_24", some 120)] }
            , { keys := [("DEP", "02"), ("LIB_DEP", "Aisne")]
              , cells := [("pp_total_24", none), ("pp_vacant_24", some 5)] } ] }

/-- A raw department frame as read from disk: a thousands-grouped string
cell. -/
def rawDept1 : RawFrame :=
  { columns := ["DEP", "LIB_DEP", "pp_total_24"]
  , rows := [[("DEP", .str "01"), ("LIB_DEP", .str "Ain"), ("pp_total_24", .str "1 234")]] }

/-- A raw commune frame as read from disk: a suppressed cell and a junk
cell. -/
def rawCommune1 : RawFrame :=
  { columns := ["DEP", "CODGEO_25", "pp_vacant_25", "pp_total_24"]
  , rows := [[ ("DEP", .str "01"), ("CODGEO_25", .str "01001")
             , ("pp_vacant_25", .str "s"), ("pp_total_24", .str "abc")]] }


/-- Big-endian digit characters of a positive number. -/
def renderNatDigits (n : Nat) : List Char := (Nat.digits 10 n).reverse.map digitChar

/-- Decimal rendering of a natural number, as `str` produces it. -/
def renderNat (n : Nat) : List Char := if n = 0 then ['0'] else renderNatDigits n

/-- The decimal rendering of an already-numeric value described by a sign,
an integer part and the list of fractional digits — the shape `astype(str)`
produces for int64 (`fds = []`) and float64 (`fds ≠ []`) cells. -/
def renderDecimal (neg : Bool) (ip : Nat) (fds : List Nat) : String :=
  String.mk ((if neg then ['-'] else []) ++ renderNat ip ++
    (if fds.isEmpty then [] else '.' :: fds.map digitChar))

/-- Value of a big-endian digit list. -/
def digitsVal (fds : List Nat) : Nat := fds.foldl (fun acc d => 10 * acc + d) 0

/-- The rational value denoted by a rendered decimal. -/
def decimalValue (neg : Bool) (ip : Nat) (fds : List Nat) : Rat :=
  (if neg then -1 else 1 : ℚ) *
    ((ip : ℚ) + ((digitsVal fds : ℕ) : ℚ) / (10 : ℚ) ^ fds.length)

instance {e a : Type} [DecidableEq e] [DecidableEq a] : DecidableEq (Except e a) := fun x y =>
  match x, y with
  | .ok x, .ok y =>
    decidable_of_iff (x = y) ⟨fun h => by rw [h], fun h => by cases h; rfl⟩
  | .error x, .error y =>
    decidable_of_iff (x = y) ⟨fun h => by rw [h], fun h => by cases h; rfl⟩
  | .ok _, .error _ => .isFalse (fun h => by cases h)
  | .error _, .ok _ => .isFalse (fun h => by cases h)

end Lovac

namespace Lovac

theorem qAdd_eq (a b : ℚ) : qAdd a b = a + b := by
  rw [qAdd, Rat.mkRat_eq_div]
  push_cast
  rw [eq_comm]
  conv_lhs => rw [← Rat.num_div_den a, ← Rat.num_div_den b]
  rw [div_add_div _ _ (by positivity) (by positivity)]
  ring_nf

theorem qSub_eq (a b : ℚ) : qSub a b = a - b := by
  rw [qSub, Rat.mkRat_eq_div]
  push_cast
  rw [eq_comm]
  conv_lhs => rw [← Rat.num_div_den a, ← Rat.num_div_den b]
  rw [div_sub_div _ _ (by positivity) (by positivity)]
  ring_nf

theorem qMul_eq (a b : ℚ) : qMul a b = a * b := by
  rw [qMul, Rat.mkRat_eq_div]
  push_cast
  rw [eq_comm]
  conv_lhs => rw [← Rat.num_div_den a, ← Rat.num_div_den b]
  rw [div_mul_div_comm]

theorem qDiv_eq (a b : ℚ) : qDiv a b = a / b := by
  rcases lt_trichotomy b.num 0 with hb | hb | hb
  · have hbne : b ≠ 0 := by rw [← Rat.num_ne_zero]; omega
    have hbq : ((b.num : ℤ) : ℚ) ≠ 0 := by exact_mod_cast (by omega : b.num ≠ 0)
    have hna : ((b.num.natAbs : ℕ) : ℚ) = -((b.num : ℤ) : ℚ) := by
      push_cast [Int.cast_natAbs]
      rw [abs_of_neg (by exact_mod_cast hb : ((b.num : ℤ) : ℚ) < 0)]
    rw [qDiv, if_pos hb, Rat.mkRat_eq_div]
    push_cast [hna]
    rw [div_eq_div_iff (mul_ne_zero (by positivity) (by simpa using hbq)) hbne]
    rw [show -(↑a.num * ↑b.den) * b = -(↑a.num * (b * ↑b.den)) from by ring]
    rw [Rat.mul_den_eq_num]
    rw [show a * (↑a.den * -↑b.num) = -(a * ↑a.den * ↑b.num) from by ring]
    rw [Rat.mul_den_eq_num]
  · have hb0 : b = 0 := by rwa [← Rat.num_eq_zero]
    subst hb0
    rw [qDiv]
    norm_num [Rat.mkRat_eq_div]
  · have hbne : b ≠ 0 := by rw [← Rat.num_ne_zero]; omega
    have hna : ((b.num.natAbs : ℕ) : ℚ) = ((b.num : ℤ) : ℚ) := by
      push_cast [Int.cast_natAbs]
      rw [abs_of_pos (by exact_mod_cast hb : (0:ℚ) < ((b.num : ℤ) : ℚ))]
    rw [qDiv, if_neg (by omega), Rat.mkRat_eq_div]
    push_cast [hna]
    rw [div_eq_div_iff (by positivity) hbne]
    rw [show (↑a.num * ↑b.den) * b = ↑a.num * (b * ↑b.den) from by ring]
    rw [Rat.mul_den_eq_num]
    rw [show a * (↑a.den * ↑b.num) = a * ↑a.den * ↑b.num from by ring]
    rw [Rat.mul_den_eq_num]

theorem qRound_eq (q : ℚ) : qRound q = round q := by
  rw [round_eq, qRound]
  have h : q + 1 / 2 = ((2 * q.num + q.den : ℤ) : ℚ) / ((2 * q.den : ℕ) : ℚ) := by
    push_cast
    rw [eq_div_iff (by positivity)]
    rw [mul_comm 2 (q.den : ℚ), ← mul_assoc]
    rw [add_mul, Rat.mul_den_eq_num]
    ring
  rw [h, Rat.floor_intCast_div_natCast]
  push_cast
  rfl

theorem round2_eq (q : ℚ) : round2 q = (round (q * 100) : ℚ) / 100 := by
  rw [round2, Rat.mkRat_eq_div, qMul_eq, qRound_eq]
  norm_num

/-- Distance between a value and its two-decimal rounding is at most 1/200. -/
theorem abs_round2_sub (q : ℚ) : |round2 q - q| ≤ 1 / 200 := by
  rw [round2_eq]
  have h := abs_sub_round (q * 100)
  have h2 : (round (q * 100) : ℚ) / 100 - q = ((round (q * 100) : ℚ) - q * 100) / 100 := by
    ring
  rw [h2, abs_div]
  rw [abs_of_pos (by norm_num : (0:ℚ) < 100)]
  rw [abs_sub_comm]
  linarith

end Lovac

namespace Lovac

/-- C6: in both loaders the suppression token "s" and the blank string
normalize to a missing value, never to zero (and the normalizers are total
functions, so no exception arises). -/
theorem C6_suppression_and_blank_missing :
    normalizeDept (some "s") = none ∧ normalizeCommune (some "s") = none ∧
    normalizeDept (some "") = none ∧ normalizeCommune (some "") = none ∧
    normalizeDept (some "s") ≠ some 0 ∧ normalizeCommune (some "s") ≠ some 0 ∧
    normalizeDept (some "") ≠ some 0 ∧ normalizeCommune (some "") ≠ some 0 := by decide

/-- C4 counterexample: a thousands-space value in the commune path is not
stripped-and-parsed but becomes missing, and a no-break-space value in the
department path likewise becomes missing — refuting the claim that both
paths strip ordinary and no-break spaces before parsing. -/
theorem C4_spaces_not_stripped_everywhere :
    normalizeCommune (some "1 234") = none ∧
    normalizeCommune (some "1 234") ≠ some 1234 ∧
    normalizeDept (some "1\u00a0234") = none ∧
    normalizeDept (some "1\u00a0234") ≠ some 1234 := by decide

/-- C4 amended: null, blank, "s"/"S" and "na" normalize to missing in both
loading paths; the department path strips ordinary spaces before parsing
(so "1 234" parses to 1234 there), but the commune path strips no spaces
and neither path strips internal no-break spaces — such cells become
missing instead. -/
theorem C4_token_normalization :
    normalizeDept none = none ∧ normalizeCommune none = none ∧
    normalizeDept (some "") = none ∧ normalizeCommune (some "") = none ∧
    normalizeDept (some "s") = none ∧ normalizeCommune (some "s") = none ∧
    normalizeDept (some "S") = none ∧ normalizeCommune (some "S") = none ∧
    normalizeDept (some "na") = none ∧ normalizeCommune (some "na") = none ∧
    normalizeDept (some "1 234") = some 1234 ∧
    normalizeCommune (some "1 234") = none ∧
    normalizeDept (some "1\u00a0234") = none := by decide

/-- C3 counterexample: on a missing input file both loaders return an empty
frame (Except.ok) instead of propagating an IOError to the caller. -/
theorem C3_loader_swallows_io_error :
    load_department_data none = Except.ok emptyRawFrame ∧
    load_commune_data none = Except.ok emptyRawFrame ∧
    (load_department_data none).isOk = true := by decide

/-- C3 amended: the loaders never propagate any error: every failure —
including a missing input file — is caught, reported to the UI, and an
empty frame is returned (only latin-1 is attempted, and latin-1 decodes
every byte sequence, so no decode failure exists). -/
theorem C3_loaders_never_propagate : ∀ file : Option RawFrame,
    (load_department_data file).isOk = true ∧ (load_commune_data file).isOk = true := by
  intro file
  cases file with
  | none => exact ⟨rfl, rfl⟩
  | some f =>
    constructor
    · rw [load_department_data, load_department_clean]
      split <;> rfl
    · rw [load_commune_data, load_commune_clean]
      split <;> rfl

/-- C2 amended: for every frame the quality report contains exactly the
row count, per-column missing counts, per-column missing percentages and
the duplicate-row count — and no consistency-violation entries. -/
theorem C2_report_fields : ∀ df : DataFrame,
    (identify_data_quality_issues df).map Prod.fst =
      ["total_rows", "missing_by_column", "missing_percentage", "duplicates"] ∧
    (identify_data_quality_issues df).lookup "total_rows" = some (QVal.nat df.rows.length) ∧
    (identify_data_quality_issues df).lookup "missing_by_column" =
      some (QVal.natMap (df.columns.map (fun c => (c, missingCount df c)))) ∧
    (identify_data_quality_issues df).lookup "duplicates" = some (QVal.nat (dupCount df.rows)) ∧
    (identify_data_quality_issues df).lookup "consistency_violations" = none ∧
    (identify_data_quality_issues df).lookup "vacant_gt_total" = none := by
  intro df
  exact ⟨rfl, rfl, rfl, rfl, rfl, rfl⟩

/-- C2 counterexample: on a frame that even contains a vacant > total row
and a duplicate pair, the report holds only the four keys above — no
consistency-violation counts appear anywhere in it. -/
theorem C2_report_lacks_consistency_counts :
    (identify_data_quality_issues dfQuality).map Prod.fst =
      ["total_rows", "missing_by_column", "missing_percentage", "duplicates"] ∧
    (identify_data_quality_issues dfQuality).lookup "total_rows" = some (QVal.nat 3) ∧
    (identify_data_quality_issues dfQuality).lookup "duplicates" = some (QVal.nat 1) ∧
    (identify_data_quality_issues dfQuality).lookup "consistency_violations" = none ∧
    "vacant_gt_total" ∉ (identify_data_quality_issues dfQuality).map Prod.fst ∧
    "vacant2y_gt_vacant" ∉ (identify_data_quality_issues dfQuality).map Prod.fst ∧
    "negative_total" ∉ (identify_data_quality_issues dfQuality).map Prod.fst ∧
    "negative_vacant" ∉ (identify_data_quality_issues dfQuality).map Prod.fst := by decide

/-- C1: on a department row shaped like the real file (pp_total_24 = 100,
pp_vacant_25 = 8, no pp_total_25 column), the two rate helpers, the national
aggregates and both snapshots substitute pp_total_24 as the period-25
denominator (rate 8.00), but prepare_department_timeseries looks up
pp_total_25, so its 2025 record has a missing total and a missing vacancy
rate — the substitution the spec requires is absent there. -/
theorem C1_timeseries_skips_total24_substitution :
    calculate_vacancy_rate dfC1 "25" = [some 8] ∧
    calculate_longterm_vacancy_rate dfC1 "25" = [some 2] ∧
    ((prepare_national_aggregates dfC1).map
        (fun r => (r.year, r.total_properties, r.vacancy_rate))).getD 5 (0, none, none) =
      (2025, some 100, some 8) ∧
    ((prepare_department_snapshot dfC1 "25").map
        (fun l => l.map (fun r => (r.total_properties, r.vacancy_rate)))) =
      Except.ok [(some 100, some 8)] ∧
    ((prepare_commune_snapshot dfCommune1 "25").map
        (fun l => l.map (fun r => (r.total_properties, r.vacancy_rate)))) =
      Except.ok [(some 100, PVal.num 8)] ∧
    ((prepare_department_timeseries dfC1).map
        (fun r => (r.year, r.total_properties, r.vacancy_rate))).getD 5 (0, none, none) =
      (2025, none, none) := by decide

/-- C5 counterexample: the 2020 record of a row with total 3, vacant 1 has
vacancy_rate 33.33 (the two-decimal rounding the code applies), which
differs from vacant/total*100 = 100/3 by 1/300 — far beyond the claimed
1e-6 tolerance. -/
theorem C5_rate_rounding_exceeds_tolerance :
    ((prepare_department_timeseries dfThird).map
        (fun r => (r.total_properties, r.vacant_properties, r.vacancy_rate))).getD 0
        (none, none, none) = (some 3, some 1, some (mkRat 3333 100)) ∧
    ¬ |(mkRat 3333 100) - (1:ℚ)/3*100| ≤ 1/1000000 :=
  ⟨by decide, by
    rw [Rat.mkRat_eq_div]
    push_cast
    rw [show (3333:ℚ)/100 - 1/3*100 = -(1/300) from by norm_num]
    rw [abs_neg, abs_of_pos (by norm_num : (0:ℚ) < 1/300)]
    norm_num⟩

/-- C7 counterexample: on a one-row frame with 17 of the 18 metric columns
(pp_total_25 absent, as in the real file) the reshaping step still emits
18 observations, not row_count x matched_metric_column_count = 17. -/
theorem C7_observation_count_mismatch :
    (observationsOf dfSeventeen).length = 18 ∧
    dfSeventeen.rows.length = 1 ∧
    (matchedMetricColumns dfSeventeen).length = 17 ∧
    (observationsOf dfSeventeen).length ≠
      dfSeventeen.rows.length * (matchedMetricColumns dfSeventeen).length := by decide

end Lovac

namespace Lovac

theorem obs_len_row (r : Row) :
    ((years.map (fun y => mkTsRecord r y)).flatMap obsOfRecord).length = 18 := rfl

/-- C7 amended: the reshaping step emits exactly 18 observations per input
row (3 metrics for each of the 6 fixed year suffixes) regardless of which
metric columns are present; this equals row_count x
matched_metric_column_count exactly when all 18 pattern columns exist. -/
theorem C7_observation_count : ∀ df : DataFrame,
    (observationsOf df).length = 18 * df.rows.length ∧
    ((matchedMetricColumns df).length = 18 →
      (observationsOf df).length = df.rows.length * (matchedMetricColumns df).length) := by
  intro df
  have key : ∀ rows : List Row,
      ((rows.flatMap (fun r => years.map (fun y => mkTsRecord r y))).flatMap obsOfRecord).length
        = 18 * rows.length := by
    intro rows
    induction rows with
    | nil => rfl
    | cons r rs ih =>
      rw [List.flatMap_cons, List.flatMap_append, List.length_append, ih, obs_len_row]
      simp [List.length_cons]
      ring
  have h1 : (observationsOf df).length = 18 * df.rows.length := key df.rows
  refine ⟨h1, fun h18 => ?_⟩
  rw [h1, h18, Nat.mul_comm]

/-- C7 witness: on a one-row frame holding all 18 metric columns the
claimed equality holds. -/
theorem C7_observation_count_witness :
    (observationsOf dfEighteen).length =
      dfEighteen.rows.length * (matchedMetricColumns dfEighteen).length :=
  (C7_observation_count dfEighteen).2 (by decide)

theorem mem_ts_cases {df : DataFrame} {r : TsRecord}
    (h : r ∈ prepare_department_timeseries df) :
    ∃ row ∈ df.rows, ∃ y ∈ years, r = mkTsRecord row y := by
  rw [prepare_department_timeseries] at h
  obtain ⟨row, hrow, hr⟩ := List.mem_flatMap.mp h
  obtain ⟨y, hy, hrec⟩ := List.mem_map.mp hr
  exact ⟨row, hrow, y, hy, hrec.symm⟩

/-- C5 amended: in every timeseries record the two rates are missing
whenever the total is missing or nonpositive (and when the respective
numerator is missing); otherwise the stored rate equals
numerator/total*100 rounded to two decimals, hence within 1/200 of the
exact quotient (the record fields are Option-valued, so no infinity or
NaN value can appear).  The claimed 1e-6 tolerance fails; see the
counterexample. -/
theorem C5_rates_guarded_and_rounded : ∀ (df : DataFrame) (r : TsRecord),
    r ∈ prepare_department_timeseries df →
    (r.total_properties = none → r.vacancy_rate = none ∧ r.longterm_vacancy_rate = none) ∧
    (∀ t, r.total_properties = some t → t ≤ 0 →
      r.vacancy_rate = none ∧ r.longterm_vacancy_rate = none) ∧
    (r.vacant_properties = none → r.vacancy_rate = none) ∧
    (r.vacant_2plus_years = none → r.longterm_vacancy_rate = none) ∧
    (∀ t v, r.total_properties = some t → 0 < t → r.vacant_properties = some v →
      r.vacancy_rate = some (round2 (v / t * 100)) ∧
      |round2 (v / t * 100) - v / t * 100| ≤ 1 / 200) ∧
    (∀ t w, r.total_properties = some t → 0 < t → r.vacant_2plus_years = some w →
      r.longterm_vacancy_rate = some (round2 (w / t * 100)) ∧
      |round2 (w / t * 100) - w / t * 100| ≤ 1 / 200) := by
  intro df r hmem
  obtain ⟨row, _, y, _, rfl⟩ := mem_ts_cases hmem
  simp only [mkTsRecord]
  refine ⟨?_, ?_, ?_, ?_, ?_, ?_⟩
  · intro h
    rw [h]
    exact ⟨rfl, rfl⟩
  · intro t ht hle
    rw [ht]
    have hnot : ¬ (0 < t) := not_lt.mpr hle
    simp [guardedRate, hnot]
  · intro h
    simp only [guardedRate, h]
    cases getCell row ("pp_total_" ++ y) with
    | none => rfl
    | some t => simp
  · intro h
    simp only [guardedRate, h]
    cases getCell row ("pp_total_" ++ y) with
    | none => rfl
    | some t => simp
  · intro t v ht hpos hv
    simp only [guardedRate, ht, hv]
    rw [if_pos hpos]
    refine ⟨?_, abs_round2_sub _⟩
    rw [qDiv_eq, qMul_eq]
  · intro t w ht hpos hw
    simp only [guardedRate, ht, hw]
    rw [if_pos hpos]
    refine ⟨?_, abs_round2_sub _⟩
    rw [qDiv_eq, qMul_eq]

/-- C5 witness: the year-24 record of the concrete frame is in the
timeseries output and carries the rounded rate for total 100, vacant 10. -/
theorem C5_rates_guarded_and_rounded_witness :
    (mkTsRecord rowC1 "24") ∈ prepare_department_timeseries dfC1 ∧
    (mkTsRecord rowC1 "24").vacancy_rate = some (round2 ((10 : ℚ) / 100 * 100)) := by
  have h := (C5_rates_guarded_and_rounded dfC1 (mkTsRecord rowC1 "24") (by decide)).2.2.2.2.1
    100 10 (by decide) (by norm_num) (by decide)
  exact ⟨by decide, h.1⟩

end Lovac

namespace Lovac

theorem mem_years_iff (y : String) :
    y ∈ years ↔ y = "20" ∨ y = "21" ∨ y = "22" ∨ y = "23" ∨ y = "24" ∨ y = "25" := by
  simp [years]

theorem filter_recsOf_self (row : Row) (y : String) (hy : y ∈ years) :
    (years.map (fun y2 => mkTsRecord row y2)).filter
      (fun r => r.dep == getKey row "DEP" && r.year == yearNum y) = [mkTsRecord row y] := by
  have h20 : yearNum "20" = 2020 := by decide
  have h21 : yearNum "21" = 2021 := by decide
  have h22 : yearNum "22" = 2022 := by decide
  have h23 : yearNum "23" = 2023 := by decide
  have h24 : yearNum "24" = 2024 := by decide
  have h25 : yearNum "25" = 2025 := by decide
  rcases (mem_years_iff y).mp hy with rfl | rfl | rfl | rfl | rfl | rfl <;>
    simp [years, List.filter, mkTsRecord, h20, h21, h22, h23, h24, h25]

theorem filter_recsOf_other (row r2 : Row) (hne : getKey r2 "DEP" ≠ getKey row "DEP")
    (yr : Nat) :
    (years.map (fun y2 => mkTsRecord r2 y2)).filter
      (fun r => r.dep == getKey row "DEP" && r.year == yr) = [] := by
  have hb : (getKey r2 "DEP" == getKey row "DEP") = false := beq_eq_false_iff_ne.mpr hne
  simp [years, List.filter, mkTsRecord, hb]

theorem filter_rest_nil (row : Row) (yr : Nat) : ∀ rs : List Row,
    getKey row "DEP" ∉ rs.map (fun r => getKey r "DEP") →
    (rs.flatMap (fun r => years.map (fun y2 => mkTsRecord r y2))).filter
      (fun r => r.dep == getKey row "DEP" && r.year == yr) = [] := by
  intro rs
  induction rs with
  | nil => intro _; rfl
  | cons r2 rs ih =>
    intro h
    rw [List.flatMap_cons, List.filter_append]
    have hne : getKey r2 "DEP" ≠ getKey row "DEP" := by
      intro he
      exact h (by rw [List.map_cons, ← he]; exact List.mem_cons_self _ _)
    rw [filter_recsOf_other row r2 hne yr,
      ih (fun hm => h (by rw [List.map_cons]; exact List.mem_cons_of_mem _ hm))]
    rfl

theorem pivot_flatMap (rows : List Row) (row : Row) (y : String) (hrow : row ∈ rows)
    (hy : y ∈ years) (hnd : (rows.map (fun r => getKey r "DEP")).Nodup) :
    (rows.flatMap (fun r => years.map (fun y2 => mkTsRecord r y2))).filter
      (fun r => r.dep == getKey row "DEP" && r.year == yearNum y) = [mkTsRecord row y] := by
  induction rows with
  | nil => cases hrow
  | cons r2 rs ih =>
    rw [List.flatMap_cons, List.filter_append]
    rw [List.map_cons, List.nodup_cons] at hnd
    rcases List.mem_cons.mp hrow with heq | hmem
    · subst heq
      rw [filter_recsOf_self row y hy]
      rw [filter_rest_nil row (yearNum y) rs hnd.1]
      rfl
    · have hne : getKey r2 "DEP" ≠ getKey row "DEP" := by
        intro he
        exact hnd.1 (by rw [he]; exact List.mem_map_of_mem _ hmem)
      rw [filter_recsOf_other row r2 hne (yearNum y)]
      rw [ih hmem hnd.2]
      rfl

/-- C8: round-trip.  On a frame whose DEP keys are pairwise distinct,
re-pivoting the melted timeseries by (geography, year) yields, for every
source row and year suffix, exactly one triple, and it is exactly the
source row's pp_total_YY, pp_vacant_YY and pp_vacant_plus_2ans_YY cells —
no value is lost, duplicated or altered. -/
theorem C8_melt_pivot_roundtrip (df : DataFrame) (row : Row) (y : String)
    (hrow : row ∈ df.rows) (hy : y ∈ years)
    (hnd : (df.rows.map (fun r => getKey r "DEP")).Nodup) :
    pivotLookup (prepare_department_timeseries df) (getKey row "DEP") (yearNum y) =
      [(getCell row ("pp_total_" ++ y), getCell row ("pp_vacant_" ++ y),
        getCell row ("pp_vacant_plus_2ans_" ++ y))] := by
  rw [pivotLookup, prepare_department_timeseries,
    pivot_flatMap df.rows row y hrow hy hnd]
  rfl

/-- C8 witness: on the concrete one-row frame, the pivot at (01, 2024)
returns exactly the original cells (100, 10, 4). -/
theorem C8_melt_pivot_roundtrip_witness :
    pivotLookup (prepare_department_timeseries dfC1) "01" 2024 =
      [(some 100, some 10, some 4)] := by
  have e1 : "01" = getKey rowC1 "DEP" := by decide
  have e2 : (2024 : Nat) = yearNum "24" := by decide
  rw [e1, e2, C8_melt_pivot_roundtrip dfC1 rowC1 "24" (by decide) (by decide) (by decide)]
  decide

end Lovac

namespace Lovac

theorem cleanDeptCell_not_str (v : RCell) :
    (∃ q, cleanDeptCell v = RCell.num q) ∨ cleanDeptCell v = RCell.na := by
  cases v with
  | str s =>
    rw [cleanDeptCell]
    cases h : normalizeDept (some s) with
    | none => exact Or.inr rfl
    | some q => exact Or.inl ⟨q, rfl⟩
  | na =>
    rw [cleanDeptCell]
    cases h : normalizeDept none with
    | none => exact Or.inr rfl
    | some q => exact Or.inl ⟨q, rfl⟩
  | num q => exact Or.inl ⟨q, rfl⟩

theorem cleanCommuneCell_not_str (v : RCell) :
    (∃ q, cleanCommuneCell v = RCell.num q) ∨ cleanCommuneCell v = RCell.na := by
  cases v with
  | str s =>
    rw [cleanCommuneCell]
    cases h : normalizeCommune (some s) with
    | none => exact Or.inr rfl
    | some q => exact Or.inl ⟨q, rfl⟩
  | na => exact Or.inr rfl
  | num q => exact Or.inl ⟨q, rfl⟩

/-- C10: after a successful load, every department cell outside DEP and
LIB_DEP, and every commune cell in a pp_ column, is a number or missing —
never an unparsed string. -/
theorem C10_loaded_metric_cells_numeric :
    (∀ (file : Option RawFrame) (df : RawFrame) (row : RawRow) (c : String) (v : RCell),
      load_department_data file = Except.ok df → row ∈ df.rows → (c, v) ∈ row →
      c ≠ "DEP" → c ≠ "LIB_DEP" → (∃ q, v = RCell.num q) ∨ v = RCell.na) ∧
    (∀ (file : Option RawFrame) (df : RawFrame) (row : RawRow) (c : String) (v : RCell),
      load_commune_data file = Except.ok df → row ∈ df.rows → (c, v) ∈ row →
      startsWithPP c = true → (∃ q, v = RCell.num q) ∨ v = RCell.na) := by
  constructor
  · intro file df row c v hload hrow hcv hc1 hc2
    cases file with
    | none =>
      simp only [load_department_data] at hload
      cases hload
      cases hrow
    | some f =>
      simp only [load_department_data, load_department_clean] at hload
      by_cases hcols : "DEP" ∈ f.columns.map stripName ∧ "LIB_DEP" ∈ f.columns.map stripName
      · rw [if_pos hcols] at hload
        cases hload
        obtain ⟨row0, _, rfl⟩ := List.mem_map.mp hrow
        obtain ⟨⟨c0, v0⟩, _, hpair⟩ := List.mem_map.mp hcv
        simp only [cleanDeptRow] at hpair
        by_cases hkey : stripName c0 = "DEP" ∨ stripName c0 = "LIB_DEP"
        · rw [if_pos hkey] at hpair
          cases hpair
          rcases hkey with hk | hk
          · exact absurd hk hc1
          · exact absurd hk hc2
        · rw [if_neg hkey] at hpair
          cases hpair
          exact cleanDeptCell_not_str v0
      · rw [if_neg hcols] at hload
        cases hload
        cases hrow
  · intro file df row c v hload hrow hcv hpp
    cases file with
    | none =>
      simp only [load_commune_data] at hload
      cases hload
      cases hrow
    | some f =>
      simp only [load_commune_data, load_commune_clean] at hload
      by_cases hcols : "DEP" ∈ f.columns.map stripName ∧ "CODGEO_25" ∈ f.columns.map stripName
      · rw [if_pos hcols] at hload
        cases hload
        obtain ⟨row0, _, rfl⟩ := List.mem_map.mp hrow
        obtain ⟨⟨c0, v0⟩, _, hpair⟩ := List.mem_map.mp hcv
        simp only [cleanCommuneRow] at hpair
        by_cases hppc : startsWithPP (stripName c0) = true
        · rw [if_pos hppc] at hpair
          cases hpair
          exact cleanCommuneCell_not_str v0
        · rw [if_neg hppc] at hpair
          by_cases htext : stripName c0 ∈ communeTextCols ∨ stripName c0 = "DEP" ∨
              stripName c0 = "CODGEO_25"
          · rw [if_pos htext] at hpair
            cases hpair
            exact absurd hpp hppc
          · rw [if_neg htext] at hpair
            cases hpair
            exact absurd hpp hppc
      · rw [if_neg hcols] at hload
        cases hload
        cases hrow

/-- C10 witness: loading the concrete raw department frame parses the
"1 234" cell of pp_total_24 into the number 1234, which the theorem
classifies as numeric-or-missing. -/
theorem C10_loaded_metric_cells_numeric_witness :
    (∃ q, RCell.num 1234 = RCell.num q) ∨ RCell.num 1234 = RCell.na :=
  C10_loaded_metric_cells_numeric.1 (some rawDept1)
    { columns := ["DEP", "LIB_DEP", "pp_total_24"]
    , rows := [[("DEP", RCell.str "01"), ("LIB_DEP", RCell.str "Ain"),
                ("pp_total_24", RCell.num 1234)]] }
    [("DEP", RCell.str "01"), ("LIB_DEP", RCell.str "Ain"), ("pp_total_24", RCell.num 1234)]
    "pp_total_24" (RCell.num 1234)
    (by decide) (by decide) (by decide) (by decide) (by decide)

end Lovac

namespace Lovac

theorem isDigitC_digitChar {d : Nat} (h : d < 10) : isDigitC (digitChar d) = true := by
  interval_cases d <;> decide

theorem charVal_digitChar {d : Nat} (h : d < 10) : charVal (digitChar d) = d := by
  interval_cases d <;> decide

theorem digit_not_ws {c : Char} (h : isDigitC c = true) : isPyWS c = false := by
  rw [isDigitC] at h
  rw [isPyWS]
  simp only [Bool.and_eq_true, decide_eq_true_eq] at h
  simp only [Bool.or_eq_false_iff, decide_eq_false_iff_not]
  omega

theorem digit_not_space {c : Char} (h : isDigitC c = true) : (c.toNat != 32) = true := by
  rw [isDigitC] at h
  simp only [Bool.and_eq_true, decide_eq_true_eq] at h
  simp only [bne_iff_ne]
  omega

theorem renderNat_all_digits (n : Nat) : ∀ c ∈ renderNat n, isDigitC c = true := by
  intro c hc
  rw [renderNat] at hc
  by_cases h : n = 0
  · rw [if_pos h] at hc
    simp only [List.mem_singleton] at hc
    subst hc
    decide
  · rw [if_neg h, renderNatDigits] at hc
    obtain ⟨d, hd, rfl⟩ := List.mem_map.mp hc
    exact isDigitC_digitChar (Nat.digits_lt_base (by norm_num) (List.mem_reverse.mp hd))

theorem renderNat_ne_nil (n : Nat) : renderNat n ≠ [] := by
  rw [renderNat]
  by_cases h : n = 0
  · rw [if_pos h]; simp
  · rw [if_neg h, renderNatDigits]
    simp only [ne_eq, List.map_eq_nil_iff, List.reverse_eq_nil_iff]
    exact Nat.digits_ne_nil_iff_ne_zero.mpr h

theorem ofDigits_reverse_eq_digitsVal (fds : List Nat) :
    Nat.ofDigits 10 fds.reverse = digitsVal fds := by
  induction fds using List.reverseRecOn with
  | nil => rfl
  | append_singleton l d ih =>
    have hd : digitsVal (l ++ [d]) = 10 * digitsVal l + d := by
      rw [digitsVal, List.foldl_append]
      rfl
    rw [List.reverse_append, List.reverse_singleton, List.singleton_append,
      Nat.ofDigits_cons, ih, hd]
    omega

theorem natFromDigits_map (fds : List Nat) (h : ∀ d ∈ fds, d < 10) :
    natFromDigits (fds.map digitChar) = digitsVal fds := by
  rw [natFromDigits, List.map_map]
  rw [show fds.map (charVal ∘ digitChar) = fds.map id from
    List.map_congr_left (fun d hd => charVal_digitChar (h d hd))]
  rw [List.map_id]
  exact ofDigits_reverse_eq_digitsVal fds

theorem natFromDigits_renderNat (n : Nat) : natFromDigits (renderNat n) = n := by
  rw [renderNat]
  by_cases h : n = 0
  · rw [if_pos h, h]; decide
  · rw [if_neg h, renderNatDigits, natFromDigits, List.map_map]
    rw [show (Nat.digits 10 n).reverse.map (charVal ∘ digitChar) =
        (Nat.digits 10 n).reverse.map id from
      List.map_congr_left (fun d hd =>
        charVal_digitChar (Nat.digits_lt_base (by norm_num) (List.mem_reverse.mp hd)))]
    rw [List.map_id, List.reverse_reverse, Nat.ofDigits_digits]

theorem dropWhile_eq_self_of_all {p : Char → Bool} {l : List Char}
    (h : ∀ c ∈ l, p c = false) : l.dropWhile p = l := by
  cases l with
  | nil => rfl
  | cons a as =>
    rw [List.dropWhile_cons, h a (List.mem_cons_self a as)]
    simp

theorem pyStrip_eq_self {l : List Char} (h : ∀ c ∈ l, isPyWS c = false) : pyStrip l = l := by
  rw [pyStrip, dropWhile_eq_self_of_all h,
    dropWhile_eq_self_of_all (fun c hc => h c (List.mem_reverse.mp hc)),
    List.reverse_reverse]

theorem removeSpaces_eq_self {l : List Char} (h : ∀ c ∈ l, (c.toNat != 32) = true) :
    removeSpaces l = l := by
  rw [removeSpaces, List.filter_eq_self.mpr h]

theorem takeWhile_eq_self_of_all {p : Char → Bool} {l : List Char}
    (h : ∀ c ∈ l, p c = true) : l.takeWhile p = l := by
  induction l with
  | nil => rfl
  | cons a as ih =>
    rw [List.takeWhile_cons, h a (List.mem_cons_self a as)]
    simp only [if_true]
    rw [ih (fun c hc => h c (List.mem_cons_of_mem a hc))]

theorem dropWhile_eq_nil_of_all {p : Char → Bool} {l : List Char}
    (h : ∀ c ∈ l, p c = true) : l.dropWhile p = [] := by
  induction l with
  | nil => rfl
  | cons a as ih =>
    rw [List.dropWhile_cons, h a (List.mem_cons_self a as)]
    simp only [if_true]
    exact ih (fun c hc => h c (List.mem_cons_of_mem a hc))

theorem takeWhile_append_cons {p : Char → Bool} {l1 l2 : List Char} {x : Char}
    (h1 : ∀ c ∈ l1, p c = true) (h2 : p x = false) :
    (l1 ++ x :: l2).takeWhile p = l1 := by
  induction l1 with
  | nil =>
    rw [List.nil_append, List.takeWhile_cons, h2]
    simp
  | cons a as ih =>
    rw [List.cons_append, List.takeWhile_cons, h1 a (List.mem_cons_self a as)]
    simp only [if_true]
    rw [ih (fun c hc => h1 c (List.mem_cons_of_mem a hc))]

theorem dropWhile_append_cons {p : Char → Bool} {l1 l2 : List Char} {x : Char}
    (h1 : ∀ c ∈ l1, p c = true) (h2 : p x = false) :
    (l1 ++ x :: l2).dropWhile p = x :: l2 := by
  induction l1 with
  | nil =>
    rw [List.nil_append, List.dropWhile_cons, h2]
    simp
  | cons a as ih =>
    rw [List.cons_append, List.dropWhile_cons, h1 a (List.mem_cons_self a as)]
    simp only [if_true]
    exact ih (fun c hc => h1 c (List.mem_cons_of_mem a hc))

theorem digit_ne_minus {c : Char} (h : isDigitC c = true) : c ≠ '-' := by
  intro he
  rw [he] at h
  exact absurd h (by decide)

theorem digit_ne_plus {c : Char} (h : isDigitC c = true) : c ≠ '+' := by
  intro he
  rw [he] at h
  exact absurd h (by decide)

theorem renderNat_isEmpty (n : Nat) : (renderNat n).isEmpty = false := by
  cases hE : (renderNat n).isEmpty
  · rfl
  · exact absurd (List.isEmpty_iff.mp hE) (renderNat_ne_nil n)

theorem parseUnsigned_renderNat (ip : Nat) :
    parseUnsigned (renderNat ip) = some ((ip : ℚ)) := by
  simp only [parseUnsigned,
    takeWhile_eq_self_of_all (renderNat_all_digits ip),
    dropWhile_eq_nil_of_all (renderNat_all_digits ip)]
  rw [renderNat_isEmpty ip]
  simp only [Bool.false_eq_true, if_false]
  rw [natFromDigits_renderNat]

theorem parseUnsigned_render (ip : Nat) (fds : List Nat) (h : ∀ d ∈ fds, d < 10) :
    parseUnsigned (renderNat ip ++ (if fds.isEmpty then [] else '.' :: fds.map digitChar)) =
      some ((ip : ℚ) + ((digitsVal fds : ℕ) : ℚ) / (10 : ℚ) ^ fds.length) := by
  cases fds with
  | nil =>
    simp only [List.isEmpty_nil, if_true, List.append_nil]
    rw [parseUnsigned_renderNat]
    congr 1
    rw [show digitsVal [] = 0 from rfl]
    push_cast
    ring
  | cons d ds =>
    simp only [List.isEmpty_cons, Bool.false_eq_true, if_false]
    have hdigits : ∀ c ∈ (d :: ds).map digitChar, isDigitC c = true := by
      intro c hc
      obtain ⟨e, he, rfl⟩ := List.mem_map.mp hc
      exact isDigitC_digitChar (h e he)
    have hdot : isDigitC '.' = false := by decide
    simp only [parseUnsigned,
      takeWhile_append_cons (renderNat_all_digits ip) hdot,
      dropWhile_append_cons (renderNat_all_digits ip) hdot]
    simp only [if_true,
      takeWhile_eq_self_of_all hdigits, dropWhile_eq_nil_of_all hdigits]
    rw [renderNat_isEmpty ip]
    simp only [Bool.false_and, Bool.false_eq_true, if_false]
    rw [natFromDigits_renderNat, natFromDigits_map _ h]
    congr 1
    rw [qAdd_eq, Rat.mkRat_eq_div, List.length_map]
    push_cast
    ring

theorem render_core_class (ip : Nat) (fds : List Nat) (h : ∀ d ∈ fds, d < 10) :
    ∀ c ∈ renderNat ip ++ (if fds.isEmpty then [] else '.' :: fds.map digitChar),
      isPyWS c = false ∧ (c.toNat != 32) = true := by
  intro c hc
  rcases List.mem_append.mp hc with hr | hf
  · have hd := renderNat_all_digits ip c hr
    exact ⟨digit_not_ws hd, digit_not_space hd⟩
  · cases hfe : fds.isEmpty with
    | true =>
      rw [hfe] at hf
      simp at hf
    | false =>
      rw [hfe] at hf
      simp only [Bool.false_eq_true, if_false] at hf
      rcases List.mem_cons.mp hf with rfl | hm
      · exact ⟨by decide, by decide⟩
      · obtain ⟨d, hd, rfl⟩ := List.mem_map.mp hm
        have hdc := isDigitC_digitChar (h d hd)
        exact ⟨digit_not_ws hdc, digit_not_space hdc⟩

/-- C9: idempotence of the department normalizer on already-numeric
values.  A numeric cell renders (via `astype(str)`) as an optional sign,
integer digits and an optional fractional part; pushing that rendering
back through strip / space-removal / `to_numeric` returns exactly the
value it denotes. -/
theorem C9_normalize_numeric_roundtrip (neg : Bool) (ip : Nat) (fds : List Nat)
    (h : ∀ d ∈ fds, d < 10) :
    normalizeDept (some (renderDecimal neg ip fds)) = some (decimalValue neg ip fds) := by
  have hclass := render_core_class ip fds h
  cases neg with
  | false =>
    have hdata : (renderDecimal false ip fds).data =
        renderNat ip ++ (if fds.isEmpty then [] else '.' :: fds.map digitChar) := rfl
    simp only [normalizeDept]
    rw [hdata]
    rw [pyStrip_eq_self (fun c hc => (hclass c hc).1),
      removeSpaces_eq_self (fun c hc => (hclass c hc).2),
      toNumeric,
      pyStrip_eq_self (fun c hc => (hclass c hc).1)]
    obtain ⟨c0, cs0, hrn⟩ : ∃ c0 cs0, renderNat ip = c0 :: cs0 := by
      cases hr : renderNat ip with
      | nil => exact absurd hr (renderNat_ne_nil ip)
      | cons a l => exact ⟨a, l, rfl⟩
    have hc0 : isDigitC c0 = true := by
      apply renderNat_all_digits ip
      rw [hrn]
      exact List.mem_cons_self _ _
    rw [hrn, List.cons_append, parseSigned]
    rw [if_neg (digit_ne_minus hc0), if_neg (digit_ne_plus hc0)]
    rw [← List.cons_append, ← hrn, parseUnsigned_render ip fds h]
    rw [decimalValue]
    rw [show (if false then (-1 : ℚ) else 1) = 1 from rfl, one_mul]
  | true =>
    have hdata : (renderDecimal true ip fds).data =
        '-' :: (renderNat ip ++ (if fds.isEmpty then [] else '.' :: fds.map digitChar)) := rfl
    have hclass2 : ∀ c ∈ (renderDecimal true ip fds).data,
        isPyWS c = false ∧ (c.toNat != 32) = true := by
      rw [hdata]
      intro c hc
      rcases List.mem_cons.mp hc with rfl | hm
      · exact ⟨by decide, by decide⟩
      · exact hclass c hm
    simp only [normalizeDept]
    rw [pyStrip_eq_self (fun c hc => (hclass2 c hc).1),
      removeSpaces_eq_self (fun c hc => (hclass2 c hc).2),
      toNumeric, pyStrip_eq_self (fun c hc => (hclass2 c hc).1)]
    rw [hdata, parseSigned]
    rw [if_pos rfl]
    rw [parseUnsigned_render ip fds h]
    simp only [Option.map_some']
    rw [decimalValue]
    rw [show (if true then (-1 : ℚ) else 1) = -1 from rfl]
    rw [qSub_eq]
    congr 1
    ring

/-- C9 witness: the rendering of 8.25 normalizes back to its value. -/
theorem C9_normalize_numeric_roundtrip_witness :
    normalizeDept (some (renderDecimal false 8 [2, 5])) =
      some (decimalValue false 8 [2, 5]) :=
  C9_normalize_numeric_roundtrip false 8 [2, 5] (by decide)

end Lovac
